import Mathlib

/-!
Verification of the sale-commit core of a retail point-of-sale application.

The embedding below is a shallow model of the TypeScript source:
* `src/src/components/pos/MenuTab.tsx` — cart state and the commit routine
  `handlePrintComplete` (lines 504-621), plus the catalog / barcode / search
  queries (lines 160-201, 255-279, 676-700);
* the `PrintDialog` component (`src/unnamed/part_006`) — payment gating
  (`handlePrintComplete`, lines 308-322) and `calculateDiscount`
  (lines 191-197);
* the `DiscountDialog` component (appended to
  `src/src/components/pos/StockTab.tsx`) — `calculateDiscount`;
* the SQL schema (`src/unnamed/part_000`) — table shapes for `stock_items`,
  `bills` and `bill_items` (cascade delete of bill items, nullable
  `created_by` with no default, integer `current_stock` with no check
  constraint).

Modelling conventions: currency values (JavaScript numbers) are modelled as
rationals, quantities as naturals, `current_stock` as an integer (the SQL
column is a plain INTEGER and can store negative values), row identifiers as
naturals.  The decimal strings produced for `reference_number` and `barcode`
are modelled as little-endian decimal digit lists (`Nat.digits 10`), which
preserves equality and distinctness of the rendered strings.  Each fallible
database primitive is driven by an explicit oracle saying whether that call
succeeds, so that every failure path of the source can be exercised.
-/

deriving instance DecidableEq for Except

namespace POS

/-- Discount kind, source value set `percentage | amount`. -/
inductive DiscountType
| percentage
| amount
deriving DecidableEq, Repr

/-- Status column of the `bills` table (`pending | completed | reprinted`). -/
inductive BillStatus
| pending
| completed
| reprinted
deriving DecidableEq, Repr

/-- Row of the `stock_items` table (schema in `src/unnamed/part_000`):
`id` (primary key), `name`, `retail_price DECIMAL`, `current_stock INTEGER`
(no check constraint, so negatives are representable), optional `barcode`. -/
structure StockItemRow where
  id : Nat
  name : String
  retail_price : ℚ
  current_stock : ℤ
  barcode : Option Nat
deriving DecidableEq, Repr

/-- Row of the `bills` table.  `reference_number` and `barcode` are the
decimal strings built in `handlePrintComplete` (MenuTab.tsx lines 513-514),
modelled as decimal digit lists.  `created_by` is nullable with no default
in the schema. -/
structure BillRow where
  id : Nat
  reference_number : List Nat
  barcode : List Nat
  customer_name : Option String
  subtotal : ℚ
  discount : ℚ
  discount_type : DiscountType
  total : ℚ
  paid_amount : ℚ
  change_amount : ℚ
  status : BillStatus
  created_by : Option Nat
deriving DecidableEq, Repr

/-- Row of the `bill_items` table, as inserted by `handlePrintComplete`
(MenuTab.tsx lines 564-575). -/
structure BillItemRow where
  bill_id : Nat
  item_name : String
  quantity : Nat
  unit_price : ℚ
  total_price : ℚ
deriving DecidableEq, Repr

/-- Client-side `MenuItem` snapshot (MenuTab.tsx lines 183-190): id, name and
price of a stock item captured when it was fetched; the stock snapshot is
kept but the commit path never reads it. -/
structure MenuItem where
  id : Nat
  name : String
  price : ℚ
  stock : ℤ
deriving DecidableEq, Repr

/-- One cart line (`OrderItem` in the source): a local id, the captured
`MenuItem` snapshot, and the requested quantity. -/
structure OrderItem where
  id : Nat
  menuItem : MenuItem
  quantity : Nat
deriving DecidableEq, Repr

/-- The MenuTab component state that the commit reads and clears:
`orderItems`, `customerName`, `discount` (MenuTab.tsx lines 25-27). -/
structure MenuState where
  orderItems : List OrderItem
  customerName : String
  discount : ℚ
deriving DecidableEq, Repr

/-- The persisted database: the three tables the commit touches. -/
structure Db where
  stock_items : List StockItemRow
  bills : List BillRow
  bill_items : List BillItemRow
deriving DecidableEq, Repr

/-- Failure oracle for the database primitives issued by one commit: whether
the i-th revalidation select, the bill insert, the i-th bill-item insert, the
i-th stock refetch and the i-th stock update succeed. -/
structure DbOracle where
  checkOk : Nat → Bool
  billInsertOk : Bool
  itemInsertOk : Nat → Bool
  stockFetchOk : Nat → Bool
  stockUpdateOk : Nat → Bool

/-- Errors thrown by `handlePrintComplete` (MenuTab.tsx lines 531-536,
558-561, 577-580).  The insufficient-stock error carries the item name and
the live availability, exactly the data interpolated into the thrown message
(the requested quantity is not part of the message). -/
inductive CommitError
| stockCheckFailed (itemName : String)
| insufficientStock (itemName : String) (available : ℤ)
| billInsertFailed
| billItemInsertFailed (itemName : String)
deriving DecidableEq, Repr

/-- Select of one stock row by id, `.eq(id, itemId).single()`: the lookup of
the unique row with that primary key, `none` when no row matches. -/
def lookupStock (l : List StockItemRow) (itemId : Nat) : Option StockItemRow :=
  l.find? (fun r => r.id == itemId)

/-- The absolute-value stock update
`.update(current_stock := newStock).eq(id, itemId)`
(MenuTab.tsx lines 597-600): every row with the given id gets the new value. -/
def setStockList (l : List StockItemRow) (itemId : Nat) (newStock : ℤ) :
    List StockItemRow :=
  l.map (fun r => if r.id == itemId then { r with current_stock := newStock } else r)

/-- Subtotal of the cart, MenuTab.tsx line 504:
`orderItems.reduce((sum, item) => sum + item.menuItem.price * item.quantity, 0)`. -/
def menuSubtotal (items : List OrderItem) : ℚ :=
  items.foldl (fun sum it => sum + it.menuItem.price * it.quantity) 0

/-- Total of the cart, MenuTab.tsx line 505: `subtotal - discount`. -/
def menuTotal (subtotal discount : ℚ) : ℚ :=
  subtotal - discount

/-- Discount computation shared verbatim by `DiscountDialog.calculateDiscount`
(StockTab.tsx appendix, lines 1089-1096) and `PrintDialog.calculateDiscount`
(`src/unnamed/part_006` lines 191-197):
percentage gives `subtotal * value / 100`, amount gives `value`. -/
def calculateDiscount (subtotal value : ℚ) (discountType : DiscountType) : ℚ :=
  if discountType = DiscountType.percentage then subtotal * value / 100 else value

/-- Reference number allocated at commit time, MenuTab.tsx line 513:
`REF-` followed by `Date.now().toString().slice(-8)`.  The last eight decimal
digits are modelled as `take 8` of the little-endian digit list; the constant
prefix is omitted since it carries no distinguishing information. -/
def refNumber (now : Nat) : List Nat :=
  (Nat.digits 10 now).take 8

/-- Bill barcode allocated at commit time, MenuTab.tsx line 514: the decimal
rendering of `Date.now()`, modelled as the full digit list. -/
def barcodeNum (now : Nat) : List Nat :=
  Nat.digits 10 now

/-- Revalidation loop of `handlePrintComplete` (MenuTab.tsx lines 523-538):
for each cart line, in order, select the live stock row by id (failure or a
missing row throws the stock-check error) and throw the insufficient-stock
error when the live stock is below the requested quantity.  Returns the
first error, or `none` when every line passes. -/
def checkStock (db : Db) (orc : DbOracle) :
    List OrderItem → Nat → Option CommitError
  | [], _ => none
  | it :: rest, i =>
    if orc.checkOk i then
      match lookupStock db.stock_items it.menuItem.id with
      | none => some (CommitError.stockCheckFailed it.menuItem.name)
      | some row =>
        if row.current_stock < (it.quantity : ℤ) then
          some (CommitError.insufficientStock it.menuItem.name row.current_stock)
        else
          checkStock db orc rest (i + 1)
    else
      some (CommitError.stockCheckFailed it.menuItem.name)

/-- Deletion of a bill, `bills.delete().eq(id, billId)` (MenuTab.tsx
line 579); per the schema, `bill_items` rows reference the bill with
`ON DELETE CASCADE`, so they are removed with it. -/
def deleteBill (db : Db) (billId : Nat) : Db :=
  { db with
    bills := db.bills.filter (fun b => b.id != billId),
    bill_items := db.bill_items.filter (fun bi => bi.bill_id != billId) }

/-- Second loop of `handlePrintComplete` (MenuTab.tsx lines 563-606): for
each cart line, insert its bill-item row (on failure: delete the bill and
throw), then refetch the live stock (on failure: warn and continue), compute
`newStock = current_stock - quantity` and write it back (on failure: warn
and continue). -/
def insertItemsAndDecrement (orc : DbOracle) (billId : Nat) :
    List OrderItem → Nat → Db → Db × Option CommitError
  | [], _, db => (db, none)
  | it :: rest, i, db =>
    if orc.itemInsertOk i then
      let db1 : Db :=
        { db with bill_items := db.bill_items ++
            [{ bill_id := billId, item_name := it.menuItem.name,
               quantity := it.quantity, unit_price := it.menuItem.price,
               total_price := it.menuItem.price * it.quantity }] }
      match (if orc.stockFetchOk i then lookupStock db1.stock_items it.menuItem.id else none) with
      | none => insertItemsAndDecrement orc billId rest (i + 1) db1
      | some row =>
        let newStock := row.current_stock - (it.quantity : ℤ)
        let db2 : Db :=
          if orc.stockUpdateOk i then
            { db1 with stock_items := setStockList db1.stock_items it.menuItem.id newStock }
          else db1
        insertItemsAndDecrement orc billId rest (i + 1) db2
    else
      (deleteBill db billId, some (CommitError.billItemInsertFailed it.menuItem.name))

/-- The MenuTab state after the unconditional reset performed at the top of
`handlePrintComplete` (MenuTab.tsx lines 517-520), before any database call. -/
def clearedMenuState : MenuState :=
  { orderItems := [], customerName := "", discount := 0 }

/-- The sale commit, `handlePrintComplete` (MenuTab.tsx lines 512-621).
Inputs mirror the closures and arguments of the source: the database, the
MenuTab state captured by the closure, the tendered `paidAmount`, the
dialog-supplied `discountApplied` and `discountType`, the commit instant
`now` (`Date.now()`), the database-generated bill id, and the failure
oracle.  Returns the resulting database, the resulting component state
(always cleared — the reset happens before the try block), and either the
inserted bill or the thrown error. -/
def handlePrintComplete (db : Db) (st : MenuState) (paidAmount discountApplied : ℚ)
    (discountType : DiscountType) (now billId : Nat) (orc : DbOracle) :
    Db × MenuState × Except CommitError BillRow :=
  let subtotal := menuSubtotal st.orderItems
  let total := menuTotal subtotal st.discount
  let changeAmount := paidAmount - total
  match checkStock db orc st.orderItems 0 with
  | some e => (db, clearedMenuState, Except.error e)
  | none =>
    if orc.billInsertOk then
      let bill : BillRow :=
        { id := billId, reference_number := refNumber now, barcode := barcodeNum now,
          customer_name := if st.customerName = "" then none else some st.customerName,
          subtotal := subtotal, discount := discountApplied,
          discount_type := discountType, total := total,
          paid_amount := paidAmount, change_amount := changeAmount,
          status := BillStatus.completed, created_by := none }
      let db1 : Db := { db with bills := db.bills ++ [bill] }
      let res := insertItemsAndDecrement orc billId st.orderItems 0 db1
      (res.1, clearedMenuState,
        match res.2 with
        | some e => Except.error e
        | none => Except.ok bill)
    else
      (db, clearedMenuState, Except.error CommitError.billInsertFailed)

/-- One commit request of a sequence: the cart state it commits, the payment
and dialog discount, the commit instant, the allocated bill id, and the
failure oracle for its database calls. -/
structure CommitRequest where
  st : MenuState
  paidAmount : ℚ
  discountApplied : ℚ
  discountType : DiscountType
  now : Nat
  billId : Nat
  orc : DbOracle

/-- Sequential execution of a list of sale commits, each one reading the
database state left by the previous one. -/
def commitSeq (db : Db) : List CommitRequest → Db
  | [] => db
  | rq :: rest =>
    commitSeq (handlePrintComplete db rq.st rq.paidAmount rq.discountApplied
      rq.discountType rq.now rq.billId rq.orc).1 rest

/-- Payment error raised by the print dialog (part_006 lines 311-315); the
message reports the shortfall `finalTotal - paid`. -/
inductive PaymentError
| insufficientPayment (shortfall : ℚ)
deriving DecidableEq, Repr

/-- The print dialog commit path: `PrintDialog.handlePrintComplete`
(`src/unnamed/part_006` lines 308-322) guards the tendered amount against
the dialog total `finalTotal = subtotal - calculateDiscount(...)` (lines
191-201) and returns the insufficient-payment error without any database
call when `paid < finalTotal`; otherwise `printToThermalPrinter` (lines
252-298) invokes the MenuTab commit with the dialog discount. -/
def dialogHandlePrintComplete (db : Db) (st : MenuState) (paid discountValue : ℚ)
    (discountType : DiscountType) (now billId : Nat) (orc : DbOracle) :
    Db × MenuState × Except (PaymentError ⊕ CommitError) BillRow :=
  let subtotal := menuSubtotal st.orderItems
  let discountAmount := calculateDiscount subtotal discountValue discountType
  let finalTotal := subtotal - discountAmount
  if paid < finalTotal then
    (db, st, Except.error (Sum.inl (PaymentError.insufficientPayment (finalTotal - paid))))
  else
    match handlePrintComplete db st paid discountAmount discountType now billId orc with
    | (db1, st1, Except.error e) => (db1, st1, Except.error (Sum.inr e))
    | (db1, st1, Except.ok b) => (db1, st1, Except.ok b)

/-- One commit session in the two-cashier interleaving model, specialised to
a one-line cart.  The program counter follows the database calls of
`handlePrintComplete` (MenuTab.tsx lines 524-606) in order: 0 = revalidation
read of the live stock (throws below the requested quantity), 1 = bill
insert, 2 = bill-item insert, 3 = stock refetch into a local variable,
4 = stock write of `fetched - qty` (the read-then-write pair of lines
583-600), 5 = done. -/
structure Session where
  qty : ℤ
  pc : Nat
  fetched : ℤ
  failed : Bool
deriving DecidableEq, Repr

/-- Fresh session requesting quantity `q`. -/
def initSession (q : ℤ) : Session :=
  { qty := q, pc := 0, fetched := 0, failed := false }

/-- One atomic database call of a session against the shared stock value.
Only steps 0 (read), 3 (read) and 4 (write) touch the stock; the bill writes
(1, 2) are recorded only by the program counter.  A failed or finished
session leaves everything unchanged. -/
def sessStep (stock : ℤ) (s : Session) : ℤ × Session :=
  if s.failed then (stock, s)
  else
    match s.pc with
    | 0 => if stock < s.qty then (stock, { s with failed := true })
           else (stock, { s with pc := 1 })
    | 1 => (stock, { s with pc := 2 })
    | 2 => (stock, { s with pc := 3 })
    | 3 => (stock, { s with fetched := stock, pc := 4 })
    | 4 => (s.fetched - s.qty, { s with pc := 5 })
    | _ => (stock, s)

/-- Run an interleaving of two sessions: `true` schedules a step of the
first session, `false` a step of the second. -/
def runSched : List Bool → ℤ × Session × Session → ℤ × Session × Session
  | [], st => st
  | b :: rest, (stock, s1, s2) =>
    if b then
      let r := sessStep stock s1
      runSched rest (r.1, r.2, s2)
    else
      let r := sessStep stock s2
      runSched rest (r.1, s1, r.2)

/-- Catalog fetch `fetchStockItems` (MenuTab.tsx lines 160-201):
`stock_items` rows with `current_stock > 0`, ordered by name.  The name
ordering is omitted here since it does not affect which rows are returned. -/
def fetchStockItemsQuery (table : List StockItemRow) : List StockItemRow :=
  table.filter (fun r => decide ((0 : ℤ) < r.current_stock))

/-- Product lookup of `handleBarcodeScanned` (MenuTab.tsx lines 255-262):
barcode equality and `current_stock > 0`, `.maybeSingle()` modelled as the
first matching row. -/
def handleBarcodeScannedQuery (table : List StockItemRow) (bc : Nat) :
    Option StockItemRow :=
  (table.filter (fun r => r.barcode == some bc && decide ((0 : ℤ) < r.current_stock))).head?

/-- Enter-key search lookup (MenuTab.tsx lines 676-700): barcode equality or
a case-insensitive name containment match (abstracted here as an arbitrary
predicate on the name), and `current_stock > 0`, with `.limit(1)
.maybeSingle()` modelled as the first matching row. -/
def searchEnterQuery (table : List StockItemRow) (bc : Nat)
    (nameMatches : String → Bool) : Option StockItemRow :=
  (table.filter
    (fun r => (r.barcode == some bc || nameMatches r.name) &&
      decide ((0 : ℤ) < r.current_stock))).head?

/-- Oracle under which every database primitive succeeds. -/
def allOkOracle : DbOracle :=
  { checkOk := fun _ => true, billInsertOk := true,
    itemInsertOk := fun _ => true, stockFetchOk := fun _ => true,
    stockUpdateOk := fun _ => true }

/-- Oracle whose only failure is the second bill-item insert. -/
def secondItemInsertFails : DbOracle :=
  { checkOk := fun _ => true, billInsertOk := true,
    itemInsertOk := fun i => i == 0, stockFetchOk := fun _ => true,
    stockUpdateOk := fun _ => true }

/-- Two-item stock table: Pen (id 1) and Book (id 2), five units each. -/
def twoItemDb : Db :=
  { stock_items :=
      [{ id := 1, name := "Pen", retail_price := 100, current_stock := 5, barcode := none },
       { id := 2, name := "Book", retail_price := 50, current_stock := 5, barcode := none }],
    bills := [], bill_items := [] }

/-- Cart holding one Pen and one Book. -/
def twoItemCart : MenuState :=
  { orderItems :=
      [{ id := 10, menuItem := { id := 1, name := "Pen", price := 100, stock := 5 }, quantity := 1 },
       { id := 11, menuItem := { id := 2, name := "Book", price := 50, stock := 5 }, quantity := 1 }],
    customerName := "", discount := 0 }

/-- Stock table holding a single Pen whose live stock has dropped to 3. -/
def lowStockDb : Db :=
  { stock_items :=
      [{ id := 1, name := "Pen", retail_price := 100, current_stock := 3, barcode := none }],
    bills := [], bill_items := [] }

/-- Cart requesting five Pens against a snapshot that still shows 10. -/
def staleCart : MenuState :=
  { orderItems :=
      [{ id := 10, menuItem := { id := 1, name := "Pen", price := 100, stock := 10 }, quantity := 5 }],
    customerName := "Bob", discount := 0 }

/-- Stock table holding ten Pens. -/
def pensDb : Db :=
  { stock_items :=
      [{ id := 1, name := "Pen", retail_price := 100, current_stock := 10, barcode := none }],
    bills := [], bill_items := [] }

/-- Cart holding five Pens (subtotal 500) with no cart-level discount. -/
def pensCart : MenuState :=
  { orderItems :=
      [{ id := 10, menuItem := { id := 1, name := "Pen", price := 100, stock := 10 }, quantity := 5 }],
    customerName := "", discount := 0 }

/-- Cart holding three Pens (subtotal 300), scenario B of the spec. -/
def threePenCart : MenuState :=
  { orderItems :=
      [{ id := 10, menuItem := { id := 1, name := "Pen", price := 100, stock := 10 }, quantity := 3 }],
    customerName := "", discount := 0 }

/-- Commit request selling the three-Pen cart, paid exactly, with every
database call succeeding. -/
def threePenRequest : CommitRequest :=
  { st := threePenCart, paidAmount := 300, discountApplied := 0,
    discountType := DiscountType.amount, now := 0, billId := 1,
    orc := allOkOracle }

/-- Single-row stock table with a barcoded Pen, five units in stock. -/
def barcodedPenTable : List StockItemRow :=
  [{ id := 1, name := "Pen", retail_price := 100, current_stock := 5, barcode := some 42 }]

/-- C1: the claim states that a commit failing at any stage leaves the
persisted state identical to the state before the commit.  The code violates
this: with two cart lines, when the second bill-item insert fails the code
deletes the bill (the cascade also removes its bill-item rows) and rethrows,
but the stock decrement already performed for the first line is not rolled
back.  Here the commit reports the bill-item failure for "Book", bills and
bill items are back to their pre-commit (empty) state, yet the Pen stock has
been decremented from 5 to 4, so the resulting database differs from the
initial one. -/
theorem commit_failure_leaves_partial_stock_decrement :
    (handlePrintComplete twoItemDb twoItemCart 150 0 DiscountType.amount 0 7
        secondItemInsertFails).2.2 =
      Except.error (CommitError.billItemInsertFailed "Book") ∧
    (handlePrintComplete twoItemDb twoItemCart 150 0 DiscountType.amount 0 7
        secondItemInsertFails).1.bills = [] ∧
    (handlePrintComplete twoItemDb twoItemCart 150 0 DiscountType.amount 0 7
        secondItemInsertFails).1.bill_items = [] ∧
    ((handlePrintComplete twoItemDb twoItemCart 150 0 DiscountType.amount 0 7
        secondItemInsertFails).1.stock_items.map (fun r => r.current_stock)) = [4, 5] ∧
    (twoItemDb.stock_items.map (fun r => r.current_stock)) = [5, 5] ∧
    (handlePrintComplete twoItemDb twoItemCart 150 0 DiscountType.amount 0 7
        secondItemInsertFails).1 ≠ twoItemDb := by
  refine ⟨by decide, by decide, by decide, by decide, by decide, fun h => ?_⟩
  have h2 := congrArg (fun d => d.stock_items.map (fun r => r.current_stock)) h
  revert h2
  decide

/-- C4: requesting 5 Pens when the live stock has dropped to 3 aborts with
the insufficient-stock error carrying the item name and the live availability
(3, read from the database rather than the 10 of the stale cart snapshot),
and the database is untouched.  However, contrary to the claim, the cart is
NOT left untouched: the component state is unconditionally cleared before the
stock check runs, so after the failure the order items, customer name and
discount are gone. -/
theorem commit_insufficient_stock_aborts_but_clears_cart :
    handlePrintComplete lowStockDb staleCart 500 0 DiscountType.amount 0 7 allOkOracle =
      (lowStockDb, clearedMenuState, Except.error (CommitError.insufficientStock "Pen" 3)) ∧
    staleCart.orderItems ≠ [] ∧
    clearedMenuState.orderItems = [] := by
  refine ⟨?_, by decide, by decide⟩
  decide

/-- C6: the claim states that for every successful commit,
`Bill.subtotal - Bill.discount = Bill.total`.  The code violates this: the
bill total is computed from the MenuTab discount state while the stored
discount column receives the discount passed in from the print dialog, and
the two can differ.  Here the cart discount is 0 and the dialog discount is
50, the commit succeeds, and the persisted bill has subtotal 500,
discount 50, total 500 — violating the invariant since 500 - 50 = 450 is not
500. -/
theorem bill_discount_total_inconsistent :
    ((handlePrintComplete pensDb pensCart 500 50 DiscountType.amount 0 1
        allOkOracle).2.2.map (fun b => (b.subtotal, b.discount, b.total))) =
      Except.ok ((500 : ℚ), (50 : ℚ), (500 : ℚ)) ∧
    (500 : ℚ) - 50 ≠ 500 := by
  constructor
  · simp [handlePrintComplete, checkStock, lookupStock, insertItemsAndDecrement,
      setStockList, menuSubtotal, menuTotal, pensDb, pensCart, allOkOracle, Except.map]
    norm_num
  · norm_num

/-- C9: the claim states that every persisted bill is stamped with
`createdBy` equal to the caller identity.  The code violates this: the bill
insert in `handlePrintComplete` passes no `created_by` value at all (and the
commit routine does not even receive the authenticated user), so the column
takes its schema default NULL on every successful commit. -/
theorem bill_created_by_never_stamped :
    ((handlePrintComplete pensDb pensCart 500 0 DiscountType.amount 0 1
        allOkOracle).2.2.map (fun b => b.created_by)) = Except.ok none := by
  decide

/-- C3: the claim states that the stock decrement is a single atomic
conditional operation, never a read-then-write pair, so that of two
concurrent commits whose combined demand exceeds the stock exactly one
fails.  The code violates this: the decrement is a plain select followed by
an absolute update.  With stock 5 and two sessions each requesting 3, the
interleaving in which the second cashier passes revalidation before the
first cashier writes lets both sessions complete without failure and drives
the final stock to -1. -/
theorem concurrent_commits_drive_stock_negative :
    (runSched [false, true, true, true, true, true, false, false, false, false]
      ((5 : ℤ), initSession 3, initSession 3)).1 = -1 ∧
    (runSched [false, true, true, true, true, true, false, false, false, false]
      ((5 : ℤ), initSession 3, initSession 3)).2.1.failed = false ∧
    (runSched [false, true, true, true, true, true, false, false, false, false]
      ((5 : ℤ), initSession 3, initSession 3)).2.1.pc = 5 ∧
    (runSched [false, true, true, true, true, true, false, false, false, false]
      ((5 : ℤ), initSession 3, initSession 3)).2.2.failed = false ∧
    (runSched [false, true, true, true, true, true, false, false, false, false]
      ((5 : ℤ), initSession 3, initSession 3)).2.2.pc = 5 := by
  decide

/-- C5: when the tendered amount is below the dialog total
`finalTotal = subtotal - calculateDiscount(subtotal, value, kind)`, the
print-dialog commit path rejects the sale with the insufficient-payment
error reporting the shortfall `finalTotal - paid`, and neither the database
nor the cart state changes; by contraposition the commit only proceeds when
`paid >= finalTotal`. -/
theorem insufficient_payment_rejected (db : Db) (st : MenuState)
    (paid discountValue : ℚ) (dt : DiscountType) (now billId : Nat) (orc : DbOracle)
    (h : paid < menuSubtotal st.orderItems -
      calculateDiscount (menuSubtotal st.orderItems) discountValue dt) :
    dialogHandlePrintComplete db st paid discountValue dt now billId orc =
      (db, st, Except.error (Sum.inl (PaymentError.insufficientPayment
        (menuSubtotal st.orderItems -
          calculateDiscount (menuSubtotal st.orderItems) discountValue dt - paid)))) := by
  simp only [dialogHandlePrintComplete, if_pos h]

/-- Witness for the insufficient-payment theorem: scenario B of the spec, a
cart of three Pens at 100 (total 300) paid with 250 is rejected with
shortfall 50 and no state change. -/
theorem insufficient_payment_rejected_witness :
    dialogHandlePrintComplete pensDb threePenCart 250 0 DiscountType.amount 0 1
      allOkOracle =
      (pensDb, threePenCart,
        Except.error (Sum.inl (PaymentError.insufficientPayment 50))) := by
  have h : (250 : ℚ) < menuSubtotal threePenCart.orderItems -
      calculateDiscount (menuSubtotal threePenCart.orderItems) 0 DiscountType.amount := by
    norm_num [menuSubtotal, threePenCart, calculateDiscount]
  rw [insufficient_payment_rejected pensDb threePenCart 250 0 DiscountType.amount 0 1
    allOkOracle h]
  norm_num [menuSubtotal, threePenCart, calculateDiscount]

/-- Helper: a left fold accumulating sums equals the initial value plus the
sum of the mapped list. -/
theorem foldl_add_map_sum {α : Type} (f : α → ℚ) :
    ∀ (l : List α) (a : ℚ), l.foldl (fun s x => s + f x) a = a + (l.map f).sum
  | [], a => by simp
  | x :: xs, a => by
    simp [foldl_add_map_sum f xs (a + f x), add_assoc]

/-- C7: the derived cart totals follow the claimed formulas — the subtotal
is the sum of price times quantity over the lines, the discount amount is
`subtotal * value / 100` for a percentage discount and the raw value for a
fixed amount, the total is subtotal minus discount amount; in particular a
10 percent discount on subtotal 500 yields discount 50 and total 450. -/
theorem cart_totals_formula (items : List OrderItem) (subt value d : ℚ) :
    menuSubtotal items = (items.map (fun it => it.menuItem.price * (it.quantity : ℚ))).sum ∧
    calculateDiscount subt value DiscountType.percentage = subt * value / 100 ∧
    calculateDiscount subt value DiscountType.amount = value ∧
    menuTotal subt d = subt - d ∧
    calculateDiscount 500 10 DiscountType.percentage = 50 ∧
    menuTotal 500 (calculateDiscount 500 10 DiscountType.percentage) = 450 := by
  refine ⟨?_, by simp [calculateDiscount], by simp [calculateDiscount], rfl,
    by norm_num [calculateDiscount], by norm_num [calculateDiscount, menuTotal]⟩
  simpa [menuSubtotal] using
    foldl_add_map_sum (fun it : OrderItem => it.menuItem.price * (it.quantity : ℚ)) items 0

/-- C10: each of the three cart-building lookup paths — the catalog fetch,
the barcode-scan product lookup, and the Enter-key name-or-barcode search —
filters on `current_stock > 0`, so any row they surface has positive stock
at query time. -/
theorem lookup_paths_only_surface_positive_stock (table : List StockItemRow)
    (bc : Nat) (nameMatches : String → Bool) (r : StockItemRow) :
    (r ∈ fetchStockItemsQuery table → 0 < r.current_stock) ∧
    (handleBarcodeScannedQuery table bc = some r → 0 < r.current_stock) ∧
    (searchEnterQuery table bc nameMatches = some r → 0 < r.current_stock) := by
  refine ⟨fun h => ?_, fun h => ?_, fun h => ?_⟩
  · have := (List.mem_filter.mp h).2
    exact of_decide_eq_true this
  · have hm := List.mem_of_mem_head? (Option.mem_def.mpr h)
    have := (List.mem_filter.mp hm).2
    exact of_decide_eq_true (Bool.and_elim_right this)
  · have hm := List.mem_of_mem_head? (Option.mem_def.mpr h)
    have := (List.mem_filter.mp hm).2
    exact of_decide_eq_true (Bool.and_elim_right this)

/-- Witness for the lookup theorem: in a one-row table holding a Pen with
five units, the Pen is surfaced by all three lookup paths and indeed has
positive stock. -/
theorem lookup_paths_only_surface_positive_stock_witness :
    (0 : ℤ) <
      ({ id := 1, name := "Pen", retail_price := 100, current_stock := 5,
         barcode := some 42 } : StockItemRow).current_stock ∧
    (0 : ℤ) < (5 : ℤ) := by
  refine ⟨?_, by decide⟩
  exact (lookup_paths_only_surface_positive_stock barcodedPenTable 42 (fun _ => false)
    { id := 1, name := "Pen", retail_price := 100, current_stock := 5,
      barcode := some 42 }).2.1 (by decide)

/-- Helper: interpreting the first `k` decimal digits of `t` recovers
`t` modulo `10 ^ k`; this pins down exactly which instants share a
`slice(-8)` reference suffix. -/
theorem ofDigits_take_digits : ∀ (k t : ℕ),
    Nat.ofDigits 10 ((Nat.digits 10 t).take k) = t % 10 ^ k
  | 0, _ => by simp [Nat.mod_one]
  | k + 1, t => by
    rcases Nat.eq_zero_or_pos t with ht | ht
    · subst ht; simp
    · rw [Nat.digits_def' (by norm_num : (1 : ℕ) < 10) ht, List.take_succ_cons,
        Nat.ofDigits_cons, ofDigits_take_digits k (t / 10)]
      rw [pow_succ, Nat.mul_comm (10 ^ k) 10, Nat.mod_mul]

/-- C8 counterexample: the claim states that any two commits at distinct
instants of an increasing clock get distinct reference numbers.  It is
false: the reference number keeps only the last eight decimal digits of the
instant, so the distinct, increasing instants 10^8 and 2*10^8 (both with
suffix 00000000) receive the same reference number. -/
theorem reference_numbers_collide_at_distinct_instants :
    (100000000 : ℕ) < 200000000 ∧ (100000000 : ℕ) ≠ 200000000 ∧
    refNumber 100000000 = refNumber 200000000 := by
  refine ⟨by norm_num, by norm_num, ?_⟩
  norm_num [refNumber, Nat.digits_def']

/-- C8 amended: two distinct commit instants always yield distinct barcodes
(the barcode is the full decimal rendering of the instant), and yield
distinct reference numbers whenever the instants are less than 10^8
milliseconds (about 27.8 hours) apart — the window within which the
eight-digit suffixes cannot wrap around to coincide. -/
theorem identifiers_distinct_within_clock_window (t1 t2 : ℕ)
    (h1 : t1 < t2) (h2 : t2 - t1 < 10 ^ 8) :
    barcodeNum t1 ≠ barcodeNum t2 ∧ refNumber t1 ≠ refNumber t2 := by
  constructor
  · intro h
    have := congrArg (Nat.ofDigits 10) h
    rw [barcodeNum, barcodeNum, Nat.ofDigits_digits, Nat.ofDigits_digits] at this
    omega
  · intro h
    have hmod : t1 % 10 ^ 8 = t2 % 10 ^ 8 := by
      have := congrArg (Nat.ofDigits 10) h
      rwa [refNumber, refNumber, ofDigits_take_digits, ofDigits_take_digits] at this
    have hdvd : 10 ^ 8 ∣ t2 - t1 := (Nat.modEq_iff_dvd' h1.le).mp hmod
    have := Nat.le_of_dvd (by omega) hdvd
    omega

/-- Witness for the amended identifier theorem: the adjacent instants 1000
and 1001 get distinct barcodes and distinct reference numbers. -/
theorem identifiers_distinct_within_clock_window_witness :
    barcodeNum 1000 ≠ barcodeNum 1001 ∧ refNumber 1000 ≠ refNumber 1001 :=
  identifiers_distinct_within_clock_window 1000 1001 (by norm_num) (by norm_num)

/-- Helper: every row surviving a stock update to a nonnegative value stays
nonnegative when all rows were nonnegative before. -/
theorem mem_setStockList_nonneg {l : List StockItemRow} {i : Nat} {v : ℤ}
    (hl : ∀ r ∈ l, 0 ≤ r.current_stock) (hv : 0 ≤ v) :
    ∀ r ∈ setStockList l i v, 0 ≤ r.current_stock := by
  intro r hr
  rcases List.mem_map.mp hr with ⟨a, ha, rfl⟩
  by_cases h : a.id = i
  · simp [h]
    exact hv
  · simp [h]
    exact hl a ha

/-- Helper: two pointwise equal predicates find the same first element. -/
theorem find?_ext {α : Type} (p q : α → Bool) (hpq : ∀ a, p a = q a) :
    ∀ l : List α, l.find? p = l.find? q
  | [] => rfl
  | a :: l => by rw [List.find?_cons, List.find?_cons, hpq a, find?_ext p q hpq l]

/-- Helper: a stock update to one id does not change the lookup of a
different id. -/
theorem lookupStock_setStockList_ne (i j : Nat) (v : ℤ) (h : i ≠ j)
    (l : List StockItemRow) :
    lookupStock (setStockList l i v) j = lookupStock l j := by
  have hcong : ∀ r : StockItemRow,
      ((fun r : StockItemRow => r.id == j) ∘
        (fun r => if r.id == i then { r with current_stock := v } else r)) r =
      (fun r : StockItemRow => r.id == j) r := by
    intro r
    by_cases hr : r.id = i
    · simp [hr, Ne.symm h]
    · simp [hr]
  simp only [lookupStock, setStockList]
  rw [List.find?_map, find?_ext _ _ hcong l]
  rcases hf : List.find? (fun r : StockItemRow => r.id == j) l with _ | r
  · rfl
  · have hrj : r.id = j := by simpa using List.find?_some hf
    have hri : (r.id == i) = false := by simp [hrj, Ne.symm h]
    simp [hri]
    exact fun h' => absurd h' (by simpa using hri)

/-- Helper: when the revalidation loop reports no error, every cart line's
id resolves to a live row whose stock covers the requested quantity. -/
theorem checkStock_none_sound (db : Db) (orc : DbOracle) :
    ∀ (items : List OrderItem) (i : Nat), checkStock db orc items i = none →
      ∀ it ∈ items, ∀ row, lookupStock db.stock_items it.menuItem.id = some row →
        (it.quantity : ℤ) ≤ row.current_stock := by
  intro items
  induction items with
  | nil =>
    intro i _ it hit
    exact absurd hit (List.not_mem_nil it)
  | cons a rest ih =>
    intro i hnone it hit row hrow
    rw [checkStock] at hnone
    split at hnone
    · split at hnone
      · exact absurd hnone (by simp)
      · next arow heq =>
        split at hnone
        · exact absurd hnone (by simp)
        · next hlt =>
          rcases List.mem_cons.mp hit with hfst | hmem
          · subst hfst
            rw [heq] at hrow
            injection hrow with e
            subst e
            omega
          · exact ih (i + 1) hnone it hmem row hrow
    · exact absurd hnone (by simp)

/-- Helper: the insert-and-decrement loop keeps every stock level
nonnegative, provided the cart lines have pairwise distinct item ids and
each line's quantity is covered by the live stock of its row. -/
theorem insertItemsAndDecrement_stock_nonneg (orc : DbOracle) (billId : Nat) :
    ∀ (items : List OrderItem) (i : Nat) (db : Db),
      (items.map (fun it => it.menuItem.id)).Nodup →
      (∀ r ∈ db.stock_items, 0 ≤ r.current_stock) →
      (∀ it ∈ items, ∀ row, lookupStock db.stock_items it.menuItem.id = some row →
        (it.quantity : ℤ) ≤ row.current_stock) →
      ∀ r ∈ (insertItemsAndDecrement orc billId items i db).1.stock_items,
        0 ≤ r.current_stock := by
  intro items
  induction items with
  | nil =>
    intro i db _ hnn _
    simpa [insertItemsAndDecrement] using hnn
  | cons a rest ih =>
    intro i db hnodup hnn hok
    have hihd : a.menuItem.id ∉ rest.map (fun it => it.menuItem.id) :=
      (List.nodup_cons.mp (by simpa using hnodup)).1
    have hnodup' : (rest.map (fun it => it.menuItem.id)).Nodup :=
      (List.nodup_cons.mp (by simpa using hnodup)).2
    have hokRest : ∀ it ∈ rest, ∀ row,
        lookupStock db.stock_items it.menuItem.id = some row →
        (it.quantity : ℤ) ≤ row.current_stock :=
      fun it hit => hok it (List.mem_cons_of_mem a hit)
    by_cases hins : orc.itemInsertOk i
    · by_cases hf : orc.stockFetchOk i
      · rcases hlk : lookupStock db.stock_items a.menuItem.id with _ | row
        · simp only [insertItemsAndDecrement, hins, hf, if_true, hlk]
          exact ih (i + 1) _ hnodup' hnn hokRest
        · have hv : 0 ≤ row.current_stock - (a.quantity : ℤ) := by
            have := hok a (List.mem_cons_self a rest) row hlk
            omega
          by_cases hu : orc.stockUpdateOk i
          · simp only [insertItemsAndDecrement, hins, hf, hu, if_true, hlk]
            refine ih (i + 1) _ hnodup' (mem_setStockList_nonneg hnn hv) ?_
            intro it hit row' hrow'
            have hne : a.menuItem.id ≠ it.menuItem.id := by
              intro e
              exact hihd (e ▸ List.mem_map_of_mem (fun it => it.menuItem.id) hit)
            rw [lookupStock_setStockList_ne _ _ _ hne] at hrow'
            exact hokRest it hit row' hrow'
          · simp only [insertItemsAndDecrement, hins, hf, hu, if_true, if_false,
              Bool.false_eq_true, hlk]
            exact ih (i + 1) _ hnodup' hnn hokRest
      · simp only [insertItemsAndDecrement, hins, hf, if_true, if_false,
          Bool.false_eq_true]
        exact ih (i + 1) _ hnodup' hnn hokRest
    · simp only [insertItemsAndDecrement, hins, if_false, Bool.false_eq_true]
      simpa [deleteBill] using hnn

/-- Helper: one whole commit — failing or succeeding at any stage — keeps
every stock level nonnegative, provided the cart lines have pairwise
distinct item ids (which the cart aggregator guarantees by merging repeated
selections of one item into a single line). -/
theorem handlePrintComplete_stock_nonneg (db : Db) (st : MenuState)
    (paidAmount discountApplied : ℚ) (discountType : DiscountType)
    (now billId : Nat) (orc : DbOracle)
    (hnodup : (st.orderItems.map (fun it => it.menuItem.id)).Nodup)
    (hnn : ∀ r ∈ db.stock_items, 0 ≤ r.current_stock) :
    ∀ r ∈ (handlePrintComplete db st paidAmount discountApplied discountType
        now billId orc).1.stock_items, 0 ≤ r.current_stock := by
  rw [handlePrintComplete]
  rcases hc : checkStock db orc st.orderItems 0 with _ | e
  · simp only [hc]
    by_cases hb : orc.billInsertOk
    · simp only [hb, if_true]
      exact insertItemsAndDecrement_stock_nonneg orc billId st.orderItems 0 _
        hnodup hnn (checkStock_none_sound db orc st.orderItems 0 hc)
    · simp only [hb, Bool.false_eq_true, if_false]
      exact hnn
  · simp only [hc]
    exact hnn

/-- C2: across any sequence of sale commits — successful or failing, with
any oracle behaviour — every stock level stays nonnegative, provided it
starts nonnegative and every committed cart has pairwise distinct item ids
(the cart aggregator merges repeated selections into one line, MenuTab.tsx
lines 221-235).  Since every prefix of a sequence is itself a sequence, the
invariant holds after every commit. -/
theorem stock_never_negative (reqs : List CommitRequest) (db : Db)
    (hnn : ∀ r ∈ db.stock_items, 0 ≤ r.current_stock)
    (hcarts : ∀ rq ∈ reqs, (rq.st.orderItems.map (fun it => it.menuItem.id)).Nodup) :
    ∀ r ∈ (commitSeq db reqs).stock_items, 0 ≤ r.current_stock := by
  induction reqs generalizing db with
  | nil => simpa [commitSeq] using hnn
  | cons rq rest ih =>
    rw [commitSeq]
    exact ih _
      (handlePrintComplete_stock_nonneg _ _ _ _ _ _ _ _
        (hcarts rq (List.mem_cons_self rq rest)) hnn)
      (fun rq2 h2 => hcarts rq2 (List.mem_cons_of_mem rq h2))

/-- Witness for the stock invariant: a concrete one-commit sequence selling
three of the ten Pens leaves every stock level nonnegative. -/
theorem stock_never_negative_witness :
    (∀ r ∈ pensDb.stock_items, 0 ≤ r.current_stock) ∧
    (∀ rq ∈ [threePenRequest],
      (rq.st.orderItems.map (fun it => it.menuItem.id)).Nodup) ∧
    (∀ r ∈ (commitSeq pensDb [threePenRequest]).stock_items,
      0 ≤ r.current_stock) :=
  ⟨by decide, by decide,
    stock_never_negative _ pensDb (by decide) (by decide)⟩

end POS
